import Mathlib

/-!
Shallow embedding of the DHT11/DHT22 single-wire sensor driver
(`NuerteyDHT11Device.h`) from the Nuertey-DHT11-Mbed repository.

Modelling conventions:
* The GPIO data line is modelled as a function `line : Nat → Nat` giving
  the logic level (0 or 1, as read by `DigitalInOut`) at each elapsed
  microsecond, with time 0 the instant the pin is switched to input mode
  after the MCU start signal (`theDigitalInOutPin.input()`).
* `wait_us(1)` polling advances time by exactly one microsecond per loop
  iteration, and `wait_us(40)` advances it by 40: the idealized timing of
  the busy-wait loops in the source.
* `time_t` timestamps are `Int` seconds; `difftime(a, b)` is exact
  integer subtraction `a - b` (`MINIMUM_SAMPLING_PERIOD_SECONDS` is the
  whole number 3, so the `double` comparison in the source coincides
  with the `Int` comparison).
* C++ `float` values cached by the driver are modelled as exact
  rationals `ℚ`; every value the driver ever stores is an integer of
  magnitude ≤ 3276, exactly representable in `float`.
* `std::error_code` is modelled by `SensorStatus_t` itself: the
  default-constructed `std::error_code` is the success value, and
  `make_error_code` is injective on the enum, so returning / caching the
  enum value is an exact model of the returned `std::error_code`.
* C++ `int` division `v /= 10` acts on a non-negative `v` in this
  driver, so it is `Nat` division.
-/

deriving instance DecidableEq for Except

/-- The `SensorStatus_t` enum of the driver (values -1 .. -7 and 0). -/
inductive SensorStatus_t where
  | SUCCESS
  | ERROR_BUS_BUSY
  | ERROR_NOT_DETECTED
  | ERROR_ACK_TOO_LONG
  | ERROR_SYNC_TIMEOUT
  | ERROR_DATA_TIMEOUT
  | ERROR_BAD_CHECKSUM
  | ERROR_TOO_FAST_READS
  deriving DecidableEq, Repr

/-- The `TemperatureScale_t` enum of the driver. -/
inductive TemperatureScale_t where
  | CELCIUS
  | FARENHEIT
  | KELVIN
  deriving DecidableEq, Repr

/-- The two sensor families the template parameter `T` selects between
(`DHT11_t` and `DHT22_t` metaprogramming tags in the source). -/
inductive SensorKind where
  | DHT11
  | DHT22
  deriving DecidableEq, Repr

/-- The constant `MINIMUM_SAMPLING_PERIOD_SECONDS = 3` (a whole-valued
`double` in the source). -/
def MINIMUM_SAMPLING_PERIOD_SECONDS : Int := 3

/-- The 5-byte data frame `m_TheDataFrame : std::array<uint8_t, 5>`. -/
structure DataFrameBytes_t where
  b0 : Nat
  b1 : Nat
  b2 : Nat
  b3 : Nat
  b4 : Nat
  deriving DecidableEq, Repr

/-- The member state of `NuerteyDHT11Device` relevant to the claims. -/
structure DHTState where
  m_TheDataFrame : DataFrameBytes_t
  m_TheLastReadTime : Int
  m_TheLastReadResult : SensorStatus_t
  m_TheLastTemperature : ℚ
  m_TheLastHumidity : ℚ
  deriving DecidableEq

/-- The busy-wait loop body of `ExpectPulse`:

    int count = 0;
    while (level == theIO) {
        if (count > max_time) { result = ERROR_TOO_FAST_READS; break; }
        count++;
        wait_us(1);
    }

`gas` is a structural-recursion bound chosen (by `ExpectPulse` below) as
`max_time + 2`; the gas-exhaustion branch is unreachable from that entry
point, because the loop errors out as soon as `count = max_time + 1`
while the line still holds `level` (so `count` never exceeds
`max_time + 1`, and `gas + count` is invariant). The gas-exhaustion
branch returns the same timeout error, so it is semantically inert.
-/
def expectPulseLoop (line : Nat → Nat) (level max_time : Nat) :
    Nat → Nat → Nat → SensorStatus_t × Nat
  | 0, _, t => (SensorStatus_t.ERROR_TOO_FAST_READS, t)
  | gas + 1, count, t =>
    if line t = level then
      if count > max_time then (SensorStatus_t.ERROR_TOO_FAST_READS, t)
      else expectPulseLoop line level max_time gas (count + 1) (t + 1)
    else (SensorStatus_t.SUCCESS, t)

/-- The method `ExpectPulse(theIO, level, max_time)`: spin (1 µs per poll) while the
line reads `level`; time out with `ERROR_TOO_FAST_READS` once the poll
counter exceeds `max_time`. Returns the status together with the elapsed
time at which the loop exited. -/
def ExpectPulse (line : Nat → Nat) (level max_time t : Nat) : SensorStatus_t × Nat :=
  expectPulseLoop line level max_time (max_time + 2) 0 t

/-- The three-phase handshake of `ReadData()` (source lines 336–359):
wait for the sensor ack (line pulled low) bounded by 40 µs, else
`ERROR_NOT_DETECTED`; wait out the ~80 µs low sync pulse bounded by
100 µs, else `ERROR_SYNC_TIMEOUT`; wait out the ~80 µs high sync pulse
bounded by 100 µs, else `ERROR_TOO_FAST_READS`.  On success, returns the
elapsed time at which the data bits begin. -/
def handshake (line : Nat → Nat) : Except SensorStatus_t Nat :=
  let r1 := ExpectPulse line 1 40 0
  if r1.1 ≠ SensorStatus_t.SUCCESS then
    Except.error SensorStatus_t.ERROR_NOT_DETECTED
  else
    let r2 := ExpectPulse line 0 100 r1.2
    if r2.1 ≠ SensorStatus_t.SUCCESS then
      Except.error SensorStatus_t.ERROR_SYNC_TIMEOUT
    else
      let r3 := ExpectPulse line 1 100 r2.2
      if r3.1 ≠ SensorStatus_t.SUCCESS then
        Except.error SensorStatus_t.ERROR_TOO_FAST_READS
      else
        Except.ok r3.2

/-- The bit-capture loop of `ReadData()` (source lines 373–395),
capturing `n` bits starting at elapsed time `t`: for each bit, wait out
the low pulse bounded by 75 µs (`ERROR_DATA_TIMEOUT` on timeout), then
`wait_us(40)` and sample the line (`bitValue[...] = theDigitalInOutPin`),
then wait out the high pulse bounded by 50 µs (`ERROR_DATA_TIMEOUT` on
timeout). Returns the sampled levels in order. -/
def captureBits (line : Nat → Nat) : Nat → Nat → Except SensorStatus_t (List Nat)
  | 0, _ => Except.ok []
  | n + 1, t =>
    let r1 := ExpectPulse line 0 75 t
    if r1.1 ≠ SensorStatus_t.SUCCESS then
      Except.error SensorStatus_t.ERROR_DATA_TIMEOUT
    else
      let bit := line (r1.2 + 40)
      let r2 := ExpectPulse line 1 50 (r1.2 + 40)
      if r2.1 ≠ SensorStatus_t.SUCCESS then
        Except.error SensorStatus_t.ERROR_DATA_TIMEOUT
      else
        match captureBits line n r2.2 with
        | Except.ok bs => Except.ok (bit :: bs)
        | Except.error e => Except.error e

/-- One iteration of the byte-packing loop (source lines 399–410):

    b = 0;
    for (j = 0; j < 8; j++)
        if (bitValue[i*8 + j] == 1) b |= (1 << (7-j));
-/
def packByte (bits : List Nat) (i : Nat) : Nat :=
  (List.range 8).foldl
    (fun b j => if bits.getD (i * 8 + j) 0 = 1 then b ||| (1 <<< (7 - j)) else b) 0

/-- The full "store the data" loop: `m_TheDataFrame[i] = b` for
`i = 0 .. 4`. -/
def storeFrame (bits : List Nat) : DataFrameBytes_t :=
  { b0 := packByte bits 0
    b1 := packByte bits 1
    b2 := packByte bits 2
    b3 := packByte bits 3
    b4 := packByte bits 4 }

/-- Select byte `i` of the frame (array indexing `m_TheDataFrame[i]`). -/
def frameByte (f : DataFrameBytes_t) : Fin 5 → Nat
  | 0 => f.b0
  | 1 => f.b1
  | 2 => f.b2
  | 3 => f.b3
  | 4 => f.b4

/-- The method `CalculateTemperature()` (source lines 467–490). For `DHT11_t`,
`v = m_TheDataFrame[2]`. For `DHT22_t`,

    v = m_TheDataFrame[2] & 0x7F; v *= 256; v += m_TheDataFrame[3];
    v /= 10;                       // C++ int division; v ≥ 0 here
    if (m_TheDataFrame[2] & 0x80) v *= -1;
-/
def CalculateTemperature (sensor : SensorKind) (f : DataFrameBytes_t) : Int :=
  match sensor with
  | SensorKind.DHT11 => (f.b2 : Int)
  | SensorKind.DHT22 =>
    let v : Nat := ((f.b2 &&& 0x7F) * 256 + f.b3) / 10
    if f.b2 &&& 0x80 ≠ 0 then -(v : Int) else (v : Int)

/-- The method `CalculateHumidity()` (source lines 494–512). For `DHT11_t`,
`v = m_TheDataFrame[0]`. For `DHT22_t`,
`v = (m_TheDataFrame[0] * 256 + m_TheDataFrame[1]) / 10` in `int`
arithmetic. -/
def CalculateHumidity (sensor : SensorKind) (f : DataFrameBytes_t) : Int :=
  match sensor with
  | SensorKind.DHT11 => (f.b0 : Int)
  | SensorKind.DHT22 => ((f.b0 * 256 + f.b1) / 10 : Nat)

/-- The method `ValidateChecksum()` (source lines 450–463): succeed, and decode the
cached temperature and humidity, iff
`m_TheDataFrame[4] == (m_TheDataFrame[0] + ... + m_TheDataFrame[3]) & 0xFF`;
otherwise return `ERROR_BAD_CHECKSUM` leaving the cache untouched. -/
def ValidateChecksum (sensor : SensorKind) (s : DHTState) : SensorStatus_t × DHTState :=
  if s.m_TheDataFrame.b4 =
      (s.m_TheDataFrame.b0 + s.m_TheDataFrame.b1 + s.m_TheDataFrame.b2 +
        s.m_TheDataFrame.b3) &&& 0xFF then
    (SensorStatus_t.SUCCESS,
      { s with
        m_TheLastTemperature := (CalculateTemperature sensor s.m_TheDataFrame : ℚ)
        m_TheLastHumidity := (CalculateHumidity sensor s.m_TheDataFrame : ℚ) })
  else
    (SensorStatus_t.ERROR_BAD_CHECKSUM, s)

/-- The body of `ReadData()` past the throttling check (source lines
279–423), acting on the state `s1` in which the attempt time has been
recorded and the frame zeroed: run the handshake and the 40-bit capture
over the line, pack the frame, and validate the checksum; every exit
path stores the returned code in `m_TheLastReadResult`. -/
def attemptRead (sensor : SensorKind) (line : Nat → Nat) (s1 : DHTState) :
    SensorStatus_t × DHTState :=
  match handshake line with
  | Except.error e => (e, { s1 with m_TheLastReadResult := e })
  | Except.ok t3 =>
    match captureBits line 40 t3 with
    | Except.error e => (e, { s1 with m_TheLastReadResult := e })
    | Except.ok bits =>
      let s2 : DHTState := { s1 with m_TheDataFrame := storeFrame bits }
      let rs := ValidateChecksum sensor s2
      (rs.1, { rs.2 with m_TheLastReadResult := rs.1 })

/-- The method `ReadData()` (source lines 268–423). If less than
`MINIMUM_SAMPLING_PERIOD_SECONDS` has elapsed since `m_TheLastReadTime`,
return the cached `m_TheLastReadResult` without touching the bus
(source lines 272–277). Otherwise record the attempt time
(`m_TheLastReadTime = currentTime`), zero the frame
(`m_TheDataFrame.fill(0)`), and run the bus transaction. -/
def ReadData (sensor : SensorKind) (line : Nat → Nat) (currentTime : Int)
    (s : DHTState) : SensorStatus_t × DHTState :=
  if currentTime - s.m_TheLastReadTime < MINIMUM_SAMPLING_PERIOD_SECONDS then
    (s.m_TheLastReadResult, s)
  else
    attemptRead sensor line
      { s with
        m_TheLastReadTime := currentTime
        m_TheDataFrame := ⟨0, 0, 0, 0, 0⟩ }

/-- Whether a `ReadData()` call at `currentTime` on state `s` performs a
physical bus transaction (i.e. does not take the early throttled
return). -/
def PerformsBusTransaction (currentTime : Int) (s : DHTState) : Bool :=
  if currentTime - s.m_TheLastReadTime < MINIMUM_SAMPLING_PERIOD_SECONDS then
    false
  else
    true

/-- The constructor (source lines 247–258):
`m_TheLastReadTime = time(NULL) - MINIMUM_SAMPLING_PERIOD_SECONDS`.
The frame, temperature and humidity members are default-initialized
(indeterminate `uint8_t`/`float` values), hence parameters;
`m_TheLastReadResult` is a default-constructed `std::error_code`,
i.e. the success value. -/
def NuerteyDHT11DeviceInit (constructionTime : Int) (frame : DataFrameBytes_t)
    (temp hum : ℚ) : DHTState :=
  { m_TheDataFrame := frame
    m_TheLastReadTime := constructionTime - MINIMUM_SAMPLING_PERIOD_SECONDS
    m_TheLastReadResult := SensorStatus_t.SUCCESS
    m_TheLastTemperature := temp
    m_TheLastHumidity := hum }

/-- The accessor `GetHumidity()` (source lines 530–533). -/
def GetHumidity (s : DHTState) : ℚ :=
  s.m_TheLastHumidity

/-- The method `ConvertCelsiusToFarenheit()` (source lines 516–519):
`(celsius * 9/5) + 32` (`celsius * 9` is `float`, then `float`
division by 5; exact in the rational model). -/
def ConvertCelsiusToFarenheit (celsius : ℚ) : ℚ :=
  celsius * 9 / 5 + 32

/-- The method `ConvertCelsiusToKelvin()` (source lines 523–526). -/
def ConvertCelsiusToKelvin (celsius : ℚ) : ℚ :=
  celsius + 273.15

/-- The accessor `GetTemperature(Scale)` (source lines 537–555). -/
def GetTemperature (Scale : TemperatureScale_t) (s : DHTState) : ℚ :=
  if Scale = TemperatureScale_t.FARENHEIT then
    ConvertCelsiusToFarenheit s.m_TheLastTemperature
  else if Scale = TemperatureScale_t.KELVIN then
    ConvertCelsiusToKelvin s.m_TheLastTemperature
  else
    s.m_TheLastTemperature

/-- A simulated GPIO line for a full frame in which every data pulse has
the same high width `w`: ack immediately (line low at time 0), low sync
pulse for 80 µs, high sync pulse for 80 µs, then for each bit a 50 µs
low gap followed by a `w` µs high data pulse, repeating. -/
def uniformLine (w : Nat) : Nat → Nat := fun t =>
  if t < 80 then 0
  else if t < 160 then 1
  else if (t - 160) % (50 + w) < 50 then 0 else 1

/-- A line stuck high forever: the sensor never acks. -/
def stuckHighLine : Nat → Nat := fun _ => 1

/-- A line stuck low forever: the sensor acks at once, but the ~80 µs
low sync pulse never ends. -/
def stuckLowLine : Nat → Nat := fun _ => 0

/-- A line that acks and completes the low sync pulse (80 µs), then
stays high forever: the ~80 µs high sync pulse never ends. -/
def stuckAfterSyncLine : Nat → Nat := fun t => if t < 80 then 0 else 1

/-- A pulse that holds `level` for exactly `w` microseconds starting at
time 0, then switches to the other level. -/
def heldLevelLine (level w : Nat) : Nat → Nat := fun t =>
  if t < w then level else 1 - level

/-- The set of status codes that `ReadData()` can actually return
(derived below); `ERROR_BUS_BUSY` and `ERROR_ACK_TOO_LONG` are declared
in `SensorStatus_t` but absent. -/
def ReachableStatuses : List SensorStatus_t :=
  [SensorStatus_t.SUCCESS, SensorStatus_t.ERROR_NOT_DETECTED,
    SensorStatus_t.ERROR_SYNC_TIMEOUT, SensorStatus_t.ERROR_TOO_FAST_READS,
    SensorStatus_t.ERROR_DATA_TIMEOUT, SensorStatus_t.ERROR_BAD_CHECKSUM]

/-! ### Helper lemmas -/

theorem getD_le_one (bits : List Nat) (h : ∀ x ∈ bits, x ≤ 1) (n : Nat) :
    bits.getD n 0 = 0 ∨ bits.getD n 0 = 1 := by
  rcases Nat.lt_or_ge n bits.length with hl | hl
  · have hm : bits.getD n 0 ∈ bits := by
      rw [List.getD_eq_getElem bits 0 hl]
      exact List.getElem_mem hl
    exact Nat.le_one_iff_eq_zero_or_eq_one.mp (h _ hm)
  · left
    exact List.getD_eq_default bits 0 hl

set_option maxHeartbeats 1000000 in
theorem packByte_eq_sum (bits : List Nat) (h : ∀ x ∈ bits, x ≤ 1) (i : Nat) :
    packByte bits i = ∑ j in Finset.range 8, bits.getD (i * 8 + j) 0 * 2 ^ (7 - j) := by
  have h0 := getD_le_one bits h (i * 8 + 0)
  have h1 := getD_le_one bits h (i * 8 + 1)
  have h2 := getD_le_one bits h (i * 8 + 2)
  have h3 := getD_le_one bits h (i * 8 + 3)
  have h4 := getD_le_one bits h (i * 8 + 4)
  have h5 := getD_le_one bits h (i * 8 + 5)
  have h6 := getD_le_one bits h (i * 8 + 6)
  have h7 := getD_le_one bits h (i * 8 + 7)
  unfold packByte
  have hrange : List.range 8 = [0, 1, 2, 3, 4, 5, 6, 7] := rfl
  rw [hrange]
  simp only [List.foldl]
  rw [Finset.sum_range_succ, Finset.sum_range_succ, Finset.sum_range_succ,
    Finset.sum_range_succ, Finset.sum_range_succ, Finset.sum_range_succ,
    Finset.sum_range_succ, Finset.sum_range_succ, Finset.sum_range_zero]
  rcases h0 with h0 | h0 <;> rcases h1 with h1 | h1 <;> rcases h2 with h2 | h2 <;>
    rcases h3 with h3 | h3 <;> rcases h4 with h4 | h4 <;> rcases h5 with h5 | h5 <;>
    rcases h6 with h6 | h6 <;> rcases h7 with h7 | h7 <;>
    simp only [h0, h1, h2, h3, h4, h5, h6, h7] <;> decide

theorem attemptRead_handshake_error (sensor : SensorKind) (line : Nat → Nat)
    (s1 : DHTState) (e : SensorStatus_t) (hh : handshake line = Except.error e) :
    attemptRead sensor line s1 = (e, { s1 with m_TheLastReadResult := e }) := by
  simp only [attemptRead, hh]

theorem attemptRead_capture_error (sensor : SensorKind) (line : Nat → Nat)
    (s1 : DHTState) (t3 : Nat) (e : SensorStatus_t)
    (hh : handshake line = Except.ok t3)
    (hc : captureBits line 40 t3 = Except.error e) :
    attemptRead sensor line s1 = (e, { s1 with m_TheLastReadResult := e }) := by
  simp only [attemptRead, hh, hc]

theorem attemptRead_captured (sensor : SensorKind) (line : Nat → Nat)
    (s1 : DHTState) (t3 : Nat) (bits : List Nat)
    (hh : handshake line = Except.ok t3)
    (hc : captureBits line 40 t3 = Except.ok bits) :
    attemptRead sensor line s1 =
      ((ValidateChecksum sensor { s1 with m_TheDataFrame := storeFrame bits }).1,
        { (ValidateChecksum sensor { s1 with m_TheDataFrame := storeFrame bits }).2 with
          m_TheLastReadResult :=
            (ValidateChecksum sensor { s1 with m_TheDataFrame := storeFrame bits }).1 }) := by
  simp only [attemptRead, hh, hc]

theorem ReadData_throttled_eq (sensor : SensorKind) (line : Nat → Nat) (now : Int)
    (s : DHTState) (h : now - s.m_TheLastReadTime < MINIMUM_SAMPLING_PERIOD_SECONDS) :
    ReadData sensor line now s = (s.m_TheLastReadResult, s) := by
  simp only [ReadData, if_pos h]

theorem ReadData_not_throttled_eq (sensor : SensorKind) (line : Nat → Nat) (now : Int)
    (s : DHTState) (h : ¬(now - s.m_TheLastReadTime < MINIMUM_SAMPLING_PERIOD_SECONDS)) :
    ReadData sensor line now s =
      attemptRead sensor line
        { s with m_TheLastReadTime := now, m_TheDataFrame := ⟨0, 0, 0, 0, 0⟩ } := by
  simp only [ReadData, if_neg h]

theorem ValidateChecksum_cases (sensor : SensorKind) (s : DHTState) :
    (s.m_TheDataFrame.b4 =
        (s.m_TheDataFrame.b0 + s.m_TheDataFrame.b1 + s.m_TheDataFrame.b2 +
          s.m_TheDataFrame.b3) &&& 0xFF ∧
      ValidateChecksum sensor s =
        (SensorStatus_t.SUCCESS,
          { s with
            m_TheLastTemperature := (CalculateTemperature sensor s.m_TheDataFrame : ℚ)
            m_TheLastHumidity := (CalculateHumidity sensor s.m_TheDataFrame : ℚ) })) ∨
    (s.m_TheDataFrame.b4 ≠
        (s.m_TheDataFrame.b0 + s.m_TheDataFrame.b1 + s.m_TheDataFrame.b2 +
          s.m_TheDataFrame.b3) &&& 0xFF ∧
      ValidateChecksum sensor s = (SensorStatus_t.ERROR_BAD_CHECKSUM, s)) := by
  unfold ValidateChecksum
  split
  · left
    exact ⟨‹_›, rfl⟩
  · right
    exact ⟨‹_›, rfl⟩

theorem handshake_error_cases (line : Nat → Nat) (e : SensorStatus_t)
    (h : handshake line = Except.error e) :
    e = SensorStatus_t.ERROR_NOT_DETECTED ∨ e = SensorStatus_t.ERROR_SYNC_TIMEOUT ∨
      e = SensorStatus_t.ERROR_TOO_FAST_READS := by
  simp only [handshake] at h
  split at h
  · injection h with h
    exact Or.inl h.symm
  · split at h
    · injection h with h
      exact Or.inr (Or.inl h.symm)
    · split at h
      · injection h with h
        exact Or.inr (Or.inr h.symm)
      · exact absurd h (by simp)

theorem captureBits_error_eq (line : Nat → Nat) :
    ∀ n t e, captureBits line n t = Except.error e →
      e = SensorStatus_t.ERROR_DATA_TIMEOUT := by
  intro n
  induction n with
  | zero =>
    intro t e h
    simp [captureBits] at h
  | succ n ih =>
    intro t e h
    simp only [captureBits] at h
    split at h
    · injection h with h
      exact h.symm
    · split at h
      · injection h with h
        exact h.symm
      · split at h
        · exact absurd h (by simp)
        · injection h with h
          subst h
          exact ih _ _ (by assumption)

theorem attemptRead_fields (sensor : SensorKind) (line : Nat → Nat) (s1 : DHTState) :
    (attemptRead sensor line s1).2.m_TheLastReadTime = s1.m_TheLastReadTime ∧
    (attemptRead sensor line s1).2.m_TheLastReadResult = (attemptRead sensor line s1).1 := by
  cases hh : handshake line with
  | error e =>
    rw [attemptRead_handshake_error sensor line s1 e hh]
    exact ⟨rfl, rfl⟩
  | ok t3 =>
    cases hc : captureBits line 40 t3 with
    | error e =>
      rw [attemptRead_capture_error sensor line s1 t3 e hh hc]
      exact ⟨rfl, rfl⟩
    | ok bits =>
      rw [attemptRead_captured sensor line s1 t3 bits hh hc]
      rcases ValidateChecksum_cases sensor { s1 with m_TheDataFrame := storeFrame bits } with
        ⟨hck, hvc⟩ | ⟨hck, hvc⟩ <;> rw [hvc] <;> exact ⟨rfl, rfl⟩

theorem attemptRead_cache_of_fail (sensor : SensorKind) (line : Nat → Nat) (s1 : DHTState)
    (h : (attemptRead sensor line s1).1 ≠ SensorStatus_t.SUCCESS) :
    (attemptRead sensor line s1).2.m_TheLastTemperature = s1.m_TheLastTemperature ∧
    (attemptRead sensor line s1).2.m_TheLastHumidity = s1.m_TheLastHumidity := by
  cases hh : handshake line with
  | error e =>
    rw [attemptRead_handshake_error sensor line s1 e hh]
    exact ⟨rfl, rfl⟩
  | ok t3 =>
    cases hc : captureBits line 40 t3 with
    | error e =>
      rw [attemptRead_capture_error sensor line s1 t3 e hh hc]
      exact ⟨rfl, rfl⟩
    | ok bits =>
      rw [attemptRead_captured sensor line s1 t3 bits hh hc] at h ⊢
      rcases ValidateChecksum_cases sensor { s1 with m_TheDataFrame := storeFrame bits } with
        ⟨hck, hvc⟩ | ⟨hck, hvc⟩
      · rw [hvc] at h
        exact absurd rfl h
      · rw [hvc]
        exact ⟨rfl, rfl⟩

theorem attemptRead_checksum_gate (sensor : SensorKind) (line : Nat → Nat)
    (s1 : DHTState) (t3 : Nat) (bits : List Nat)
    (hhs : handshake line = Except.ok t3)
    (hcap : captureBits line 40 t3 = Except.ok bits) :
    ((attemptRead sensor line s1).1 = SensorStatus_t.SUCCESS ↔
      (storeFrame bits).b4 =
        ((storeFrame bits).b0 + (storeFrame bits).b1 + (storeFrame bits).b2 +
          (storeFrame bits).b3) &&& 0xFF) ∧
    ((storeFrame bits).b4 ≠
        ((storeFrame bits).b0 + (storeFrame bits).b1 + (storeFrame bits).b2 +
          (storeFrame bits).b3) &&& 0xFF →
      (attemptRead sensor line s1).1 = SensorStatus_t.ERROR_BAD_CHECKSUM ∧
      (attemptRead sensor line s1).2.m_TheLastTemperature = s1.m_TheLastTemperature ∧
      (attemptRead sensor line s1).2.m_TheLastHumidity = s1.m_TheLastHumidity) := by
  rw [attemptRead_captured sensor line s1 t3 bits hhs hcap]
  rcases ValidateChecksum_cases sensor { s1 with m_TheDataFrame := storeFrame bits } with
    ⟨hck, hvc⟩ | ⟨hck, hvc⟩
  · have hck' : (storeFrame bits).b4 =
        ((storeFrame bits).b0 + (storeFrame bits).b1 + (storeFrame bits).b2 +
          (storeFrame bits).b3) &&& 0xFF := hck
    rw [hvc]
    exact ⟨iff_of_true rfl hck', fun hne => absurd hck' hne⟩
  · have hck' : (storeFrame bits).b4 ≠
        ((storeFrame bits).b0 + (storeFrame bits).b1 + (storeFrame bits).b2 +
          (storeFrame bits).b3) &&& 0xFF := hck
    rw [hvc]
    refine ⟨⟨fun hs => SensorStatus_t.noConfusion hs, fun hc => absurd hc hck'⟩,
      fun _ => ⟨rfl, rfl, rfl⟩⟩

/-! ### Claim theorems -/

/-- C4: for every execution of `ReadData()` that returns a non-success
code, the cached reading (`m_TheLastTemperature`, `m_TheLastHumidity`)
equals its value before the call; the cache is overwritten only by a
checksum-valid frame. -/
theorem dht_c4_failure_preserves_cache (sensor : SensorKind) (line : Nat → Nat)
    (now : Int) (s : DHTState)
    (h : (ReadData sensor line now s).1 ≠ SensorStatus_t.SUCCESS) :
    (ReadData sensor line now s).2.m_TheLastTemperature = s.m_TheLastTemperature ∧
    (ReadData sensor line now s).2.m_TheLastHumidity = s.m_TheLastHumidity := by
  by_cases hth : now - s.m_TheLastReadTime < MINIMUM_SAMPLING_PERIOD_SECONDS
  · rw [ReadData_throttled_eq sensor line now s hth]
    exact ⟨rfl, rfl⟩
  · rw [ReadData_not_throttled_eq sensor line now s hth] at h ⊢
    exact attemptRead_cache_of_fail sensor line _ h

/-- C4 witness: a concrete failing read (line stuck high, so the sensor
is never detected) leaves the cached reading 7 / 9 intact. -/
theorem dht_c4_witness :
    (ReadData SensorKind.DHT22 stuckHighLine 0
        (NuerteyDHT11DeviceInit 0 ⟨0, 0, 0, 0, 0⟩ 7 9)).2.m_TheLastTemperature =
      (NuerteyDHT11DeviceInit 0 ⟨0, 0, 0, 0, 0⟩ 7 9).m_TheLastTemperature ∧
    (ReadData SensorKind.DHT22 stuckHighLine 0
        (NuerteyDHT11DeviceInit 0 ⟨0, 0, 0, 0, 0⟩ 7 9)).2.m_TheLastHumidity =
      (NuerteyDHT11DeviceInit 0 ⟨0, 0, 0, 0, 0⟩ 7 9).m_TheLastHumidity :=
  dht_c4_failure_preserves_cache SensorKind.DHT22 stuckHighLine 0
    (NuerteyDHT11DeviceInit 0 ⟨0, 0, 0, 0, 0⟩ 7 9) (by decide)

/-- C3: when a `ReadData()` call at time `now` performs a physical bus
transaction (is not itself throttled), any second call less than the
minimum sampling period later performs no bus operation (the result is
independent of the second call's line), returns the same result, and
leaves the whole state — cached temperature and humidity included —
unchanged. -/
theorem dht_c3_throttled_second_call (sensor : SensorKind) (line line2 : Nat → Nat)
    (now now2 : Int) (s : DHTState)
    (hfirst : ¬(now - s.m_TheLastReadTime < MINIMUM_SAMPLING_PERIOD_SECONDS))
    (hsoon : now2 - now < MINIMUM_SAMPLING_PERIOD_SECONDS) :
    PerformsBusTransaction now2 (ReadData sensor line now s).2 = false ∧
    ReadData sensor line2 now2 (ReadData sensor line now s).2 =
      ((ReadData sensor line now s).1, (ReadData sensor line now s).2) := by
  have htime : (ReadData sensor line now s).2.m_TheLastReadTime = now := by
    rw [ReadData_not_throttled_eq sensor line now s hfirst]
    exact (attemptRead_fields sensor line _).1
  have hres : (ReadData sensor line now s).2.m_TheLastReadResult =
      (ReadData sensor line now s).1 := by
    rw [ReadData_not_throttled_eq sensor line now s hfirst]
    exact (attemptRead_fields sensor line _).2
  have hth2 : now2 - (ReadData sensor line now s).2.m_TheLastReadTime <
      MINIMUM_SAMPLING_PERIOD_SECONDS := by
    rw [htime]
    exact hsoon
  constructor
  · unfold PerformsBusTransaction
    rw [if_pos hth2]
  · rw [ReadData_throttled_eq sensor line2 now2 _ hth2, hres]

/-- C3 witness: a first (unthrottled, failing) read at t = 0 s followed
by a second call at t = 2 s: the second call skips the bus and repeats
the first call's result and state. -/
theorem dht_c3_witness :
    PerformsBusTransaction 2
      (ReadData SensorKind.DHT22 stuckHighLine 0
        (NuerteyDHT11DeviceInit 0 ⟨0, 0, 0, 0, 0⟩ 0 0)).2 = false ∧
    ReadData SensorKind.DHT22 stuckLowLine 2
        (ReadData SensorKind.DHT22 stuckHighLine 0
          (NuerteyDHT11DeviceInit 0 ⟨0, 0, 0, 0, 0⟩ 0 0)).2 =
      ((ReadData SensorKind.DHT22 stuckHighLine 0
          (NuerteyDHT11DeviceInit 0 ⟨0, 0, 0, 0, 0⟩ 0 0)).1,
        (ReadData SensorKind.DHT22 stuckHighLine 0
          (NuerteyDHT11DeviceInit 0 ⟨0, 0, 0, 0, 0⟩ 0 0)).2) :=
  dht_c3_throttled_second_call SensorKind.DHT22 stuckHighLine stuckLowLine 0 2
    (NuerteyDHT11DeviceInit 0 ⟨0, 0, 0, 0, 0⟩ 0 0) (by decide) (by decide)

/-- C10: the constructor backdates `m_TheLastReadTime` by exactly the
minimum sampling period, so a first `ReadData()` call at any time not
before construction is never throttled. -/
theorem dht_c10_first_read_unthrottled (constructionTime now : Int)
    (frame : DataFrameBytes_t) (temp hum : ℚ) (h : constructionTime ≤ now) :
    (NuerteyDHT11DeviceInit constructionTime frame temp hum).m_TheLastReadTime =
      constructionTime - MINIMUM_SAMPLING_PERIOD_SECONDS ∧
    PerformsBusTransaction now (NuerteyDHT11DeviceInit constructionTime frame temp hum) =
      true := by
  refine ⟨rfl, ?_⟩
  unfold PerformsBusTransaction
  have hcond : ¬(now -
      (NuerteyDHT11DeviceInit constructionTime frame temp hum).m_TheLastReadTime <
      MINIMUM_SAMPLING_PERIOD_SECONDS) := by
    show ¬(now - (constructionTime - MINIMUM_SAMPLING_PERIOD_SECONDS) <
      MINIMUM_SAMPLING_PERIOD_SECONDS)
    unfold MINIMUM_SAMPLING_PERIOD_SECONDS
    omega
  rw [if_neg hcond]

/-- C10 witness: a device constructed at t = 0 s and read immediately
(also at t = 0 s) performs the bus transaction. -/
theorem dht_c10_witness :
    (NuerteyDHT11DeviceInit 0 ⟨0, 0, 0, 0, 0⟩ 0 0).m_TheLastReadTime =
      0 - MINIMUM_SAMPLING_PERIOD_SECONDS ∧
    PerformsBusTransaction 0 (NuerteyDHT11DeviceInit 0 ⟨0, 0, 0, 0, 0⟩ 0 0) = true :=
  dht_c10_first_read_unthrottled 0 0 ⟨0, 0, 0, 0, 0⟩ 0 0 (by decide)

/-- C7: for every cached Celsius value, `GetTemperature(FARENHEIT)` is
c*9/5+32, `GetTemperature(KELVIN)` is c+273.15, `GetTemperature(CELCIUS)`
is c, and Kelvin minus 273.15 recovers c exactly (float arithmetic
modelled as exact rationals). -/
theorem dht_c7_scale_conversion (s : DHTState) :
    GetTemperature TemperatureScale_t.FARENHEIT s =
      s.m_TheLastTemperature * 9 / 5 + 32 ∧
    GetTemperature TemperatureScale_t.KELVIN s = s.m_TheLastTemperature + 273.15 ∧
    GetTemperature TemperatureScale_t.CELCIUS s = s.m_TheLastTemperature ∧
    GetTemperature TemperatureScale_t.KELVIN s - 273.15 = s.m_TheLastTemperature := by
  refine ⟨rfl, rfl, rfl, ?_⟩
  show s.m_TheLastTemperature + 273.15 - 273.15 = s.m_TheLastTemperature
  ring


theorem attemptRead_fst_mem (sensor : SensorKind) (line : Nat → Nat) (s1 : DHTState) :
    (attemptRead sensor line s1).1 ∈ ReachableStatuses := by
  cases hh : handshake line with
  | error e =>
    rw [attemptRead_handshake_error sensor line s1 e hh]
    show e ∈ ReachableStatuses
    rcases handshake_error_cases line e hh with he | he | he <;> subst he <;> decide
  | ok t3 =>
    cases hc : captureBits line 40 t3 with
    | error e =>
      rw [attemptRead_capture_error sensor line s1 t3 e hh hc]
      show e ∈ ReachableStatuses
      rw [captureBits_error_eq line 40 t3 e hc]
      decide
    | ok bits =>
      rw [attemptRead_captured sensor line s1 t3 bits hh hc]
      show (ValidateChecksum sensor
          { s1 with m_TheDataFrame := storeFrame bits }).1 ∈ ReachableStatuses
      rcases ValidateChecksum_cases sensor { s1 with m_TheDataFrame := storeFrame bits } with
        ⟨hck, hvc⟩ | ⟨hck, hvc⟩
      · rw [hvc]
        show SensorStatus_t.SUCCESS ∈ ReachableStatuses
        decide
      · rw [hvc]
        show SensorStatus_t.ERROR_BAD_CHECKSUM ∈ ReachableStatuses
        decide

/-- C9: `ReadData()` never returns `ERROR_BUS_BUSY` or
`ERROR_ACK_TOO_LONG`: whenever the cached result is itself one of the
six reachable codes (as it is from construction on), the returned code
is one of `SUCCESS`, `ERROR_NOT_DETECTED`, `ERROR_SYNC_TIMEOUT`,
`ERROR_TOO_FAST_READS`, `ERROR_DATA_TIMEOUT`, `ERROR_BAD_CHECKSUM`. -/
theorem dht_c9_error_taxonomy (sensor : SensorKind) (line : Nat → Nat) (now : Int)
    (s : DHTState) (h : s.m_TheLastReadResult ∈ ReachableStatuses) :
    (ReadData sensor line now s).1 ∈ ReachableStatuses ∧
    (ReadData sensor line now s).1 ≠ SensorStatus_t.ERROR_BUS_BUSY ∧
    (ReadData sensor line now s).1 ≠ SensorStatus_t.ERROR_ACK_TOO_LONG := by
  have hmem : (ReadData sensor line now s).1 ∈ ReachableStatuses := by
    by_cases hth : now - s.m_TheLastReadTime < MINIMUM_SAMPLING_PERIOD_SECONDS
    · rw [ReadData_throttled_eq sensor line now s hth]
      exact h
    · rw [ReadData_not_throttled_eq sensor line now s hth]
      exact attemptRead_fst_mem sensor line _
  have hr : ∀ x ∈ ReachableStatuses,
      x ≠ SensorStatus_t.ERROR_BUS_BUSY ∧ x ≠ SensorStatus_t.ERROR_ACK_TOO_LONG := by
    decide
  exact ⟨hmem, (hr _ hmem).1, (hr _ hmem).2⟩

/-- C9 witness: a concrete read on a freshly constructed device (whose
cached result is the default success code). -/
theorem dht_c9_witness :
    (ReadData SensorKind.DHT11 stuckHighLine 0
        (NuerteyDHT11DeviceInit 0 ⟨0, 0, 0, 0, 0⟩ 0 0)).1 ∈ ReachableStatuses ∧
    (ReadData SensorKind.DHT11 stuckHighLine 0
        (NuerteyDHT11DeviceInit 0 ⟨0, 0, 0, 0, 0⟩ 0 0)).1 ≠
      SensorStatus_t.ERROR_BUS_BUSY ∧
    (ReadData SensorKind.DHT11 stuckHighLine 0
        (NuerteyDHT11DeviceInit 0 ⟨0, 0, 0, 0, 0⟩ 0 0)).1 ≠
      SensorStatus_t.ERROR_ACK_TOO_LONG :=
  dht_c9_error_taxonomy SensorKind.DHT11 stuckHighLine 0
    (NuerteyDHT11DeviceInit 0 ⟨0, 0, 0, 0, 0⟩ 0 0) (by decide)

/-- C1: for every unthrottled execution whose 40-bit capture completes
without a timeout, `ReadData()` returns success iff the fifth packed
byte equals the low 8 bits of the sum of the first four; on mismatch it
returns `ERROR_BAD_CHECKSUM` and leaves the cached reading unchanged. -/
theorem dht_c1_checksum_gate (sensor : SensorKind) (line : Nat → Nat) (now : Int)
    (s : DHTState) (t3 : Nat) (bits : List Nat)
    (hthr : ¬(now - s.m_TheLastReadTime < MINIMUM_SAMPLING_PERIOD_SECONDS))
    (hhs : handshake line = Except.ok t3)
    (hcap : captureBits line 40 t3 = Except.ok bits) :
    ((ReadData sensor line now s).1 = SensorStatus_t.SUCCESS ↔
      (storeFrame bits).b4 =
        ((storeFrame bits).b0 + (storeFrame bits).b1 + (storeFrame bits).b2 +
          (storeFrame bits).b3) &&& 0xFF) ∧
    ((storeFrame bits).b4 ≠
        ((storeFrame bits).b0 + (storeFrame bits).b1 + (storeFrame bits).b2 +
          (storeFrame bits).b3) &&& 0xFF →
      (ReadData sensor line now s).1 = SensorStatus_t.ERROR_BAD_CHECKSUM ∧
      (ReadData sensor line now s).2.m_TheLastTemperature = s.m_TheLastTemperature ∧
      (ReadData sensor line now s).2.m_TheLastHumidity = s.m_TheLastHumidity) := by
  rw [ReadData_not_throttled_eq sensor line now s hthr]
  exact attemptRead_checksum_gate sensor line _ t3 bits hhs hcap

/-- C1 witness: a concrete unthrottled read over a scripted line whose
handshake and 40-bit capture complete (all data pulses 27 µs wide, so
the frame is all zeros and its checksum is valid). -/
theorem dht_c1_witness :
    ((ReadData SensorKind.DHT22 (uniformLine 27) 0
        (NuerteyDHT11DeviceInit 0 ⟨9, 9, 9, 9, 9⟩ 7 7)).1 = SensorStatus_t.SUCCESS ↔
      (storeFrame (List.replicate 40 0)).b4 =
        ((storeFrame (List.replicate 40 0)).b0 + (storeFrame (List.replicate 40 0)).b1 +
          (storeFrame (List.replicate 40 0)).b2 +
          (storeFrame (List.replicate 40 0)).b3) &&& 0xFF) ∧
    ((storeFrame (List.replicate 40 0)).b4 ≠
        ((storeFrame (List.replicate 40 0)).b0 + (storeFrame (List.replicate 40 0)).b1 +
          (storeFrame (List.replicate 40 0)).b2 +
          (storeFrame (List.replicate 40 0)).b3) &&& 0xFF →
      (ReadData SensorKind.DHT22 (uniformLine 27) 0
          (NuerteyDHT11DeviceInit 0 ⟨9, 9, 9, 9, 9⟩ 7 7)).1 =
        SensorStatus_t.ERROR_BAD_CHECKSUM ∧
      (ReadData SensorKind.DHT22 (uniformLine 27) 0
          (NuerteyDHT11DeviceInit 0 ⟨9, 9, 9, 9, 9⟩ 7 7)).2.m_TheLastTemperature =
        (NuerteyDHT11DeviceInit 0 ⟨9, 9, 9, 9, 9⟩ 7 7).m_TheLastTemperature ∧
      (ReadData SensorKind.DHT22 (uniformLine 27) 0
          (NuerteyDHT11DeviceInit 0 ⟨9, 9, 9, 9, 9⟩ 7 7)).2.m_TheLastHumidity =
        (NuerteyDHT11DeviceInit 0 ⟨9, 9, 9, 9, 9⟩ 7 7).m_TheLastHumidity) :=
  dht_c1_checksum_gate SensorKind.DHT22 (uniformLine 27) 0
    (NuerteyDHT11DeviceInit 0 ⟨9, 9, 9, 9, 9⟩ 7 7) 160 (List.replicate 40 0)
    (by decide) (by decide) (by decide)

/-- C6: with the 40 µs settle point of the capture loop, a 27 µs data
pulse decodes as logic 0 and a 71 µs data pulse decodes as logic 1, at
every one of the 40 bit positions of the frame (the capture loop samples
the line exactly 40 µs after each bit's low phase ends). -/
theorem dht_c6_bit_decode :
    handshake (uniformLine 27) = Except.ok 160 ∧
    captureBits (uniformLine 27) 40 160 = Except.ok (List.replicate 40 0) ∧
    handshake (uniformLine 71) = Except.ok 160 ∧
    captureBits (uniformLine 71) 40 160 = Except.ok (List.replicate 40 1) ∧
    (∀ i : Fin 40, (List.replicate 40 (0 : Nat)).getD i 0 = 0 ∧
      (List.replicate 40 (1 : Nat)).getD i 0 = 1) :=
  ⟨by decide, by decide, by decide, by decide, by decide⟩

/-- C5 counterexample: a line that acks, completes the 80 µs low sync
pulse, and then sticks high makes the post-ack high sync pulse time out;
`ReadData()` then returns `ERROR_TOO_FAST_READS`, not the sync-timeout
error the claim requires for that phase. -/
theorem dht_c5_counterexample :
    (ReadData SensorKind.DHT22 stuckAfterSyncLine 0
        (NuerteyDHT11DeviceInit 0 ⟨0, 0, 0, 0, 0⟩ 0 0)).1 =
      SensorStatus_t.ERROR_TOO_FAST_READS ∧
    SensorStatus_t.ERROR_TOO_FAST_READS ≠ SensorStatus_t.ERROR_SYNC_TIMEOUT :=
  ⟨by decide, by decide⟩

/-- C5 (amended): no ack within the 40 µs bound yields
`ERROR_NOT_DETECTED`; a timeout of the post-ack ~80 µs low pulse yields
`ERROR_SYNC_TIMEOUT`; a timeout of the post-ack ~80 µs high pulse yields
`ERROR_TOO_FAST_READS`; and in the idealized 1 µs-per-poll model a level
held exactly one microsecond past a phase's bound still succeeds — the
timeout fires only from two microseconds past the bound (the counter
must strictly exceed `max_time`). -/
theorem dht_c5_amended :
    (ReadData SensorKind.DHT22 stuckHighLine 0
        (NuerteyDHT11DeviceInit 0 ⟨0, 0, 0, 0, 0⟩ 0 0)).1 =
      SensorStatus_t.ERROR_NOT_DETECTED ∧
    (ReadData SensorKind.DHT22 stuckLowLine 0
        (NuerteyDHT11DeviceInit 0 ⟨0, 0, 0, 0, 0⟩ 0 0)).1 =
      SensorStatus_t.ERROR_SYNC_TIMEOUT ∧
    (ReadData SensorKind.DHT22 stuckAfterSyncLine 0
        (NuerteyDHT11DeviceInit 0 ⟨0, 0, 0, 0, 0⟩ 0 0)).1 =
      SensorStatus_t.ERROR_TOO_FAST_READS ∧
    ExpectPulse (heldLevelLine 1 41) 1 40 0 = (SensorStatus_t.SUCCESS, 41) ∧
    ExpectPulse (heldLevelLine 1 42) 1 40 0 = (SensorStatus_t.ERROR_TOO_FAST_READS, 41) ∧
    ExpectPulse (heldLevelLine 0 101) 0 100 0 = (SensorStatus_t.SUCCESS, 101) ∧
    ExpectPulse (heldLevelLine 0 102) 0 100 0 =
      (SensorStatus_t.ERROR_TOO_FAST_READS, 101) :=
  ⟨by decide, by decide, by decide, by decide, by decide, by decide, by decide⟩

/-- C2: evaluation of the DHT22 decode at the claim's own sign-handling
example. The checksum-valid frame `[0x00, 0x00, 0x80, 0x01, 0x81]`
decodes to a cached temperature of 0 — not the −0.1 °C the claim (and
the device's 0.1-degree encoding) requires — because `v /= 10` runs in
`int` arithmetic before the value ever reaches `float`. Likewise the
checksum-valid frame `[0x02, 0x8C, 0x00, 0x00, 0x8E]` (humidity word
652) decodes to humidity 65, not 65.2. -/
theorem dht_c2_truncated_decode :
    (ValidateChecksum SensorKind.DHT22
        ⟨⟨0x00, 0x00, 0x80, 0x01, 0x81⟩, 0, SensorStatus_t.SUCCESS, 7, 7⟩).1 =
      SensorStatus_t.SUCCESS ∧
    GetTemperature TemperatureScale_t.CELCIUS
        (ValidateChecksum SensorKind.DHT22
          ⟨⟨0x00, 0x00, 0x80, 0x01, 0x81⟩, 0, SensorStatus_t.SUCCESS, 7, 7⟩).2 = 0 ∧
    (0 : ℚ) ≠ -(1 / 10) ∧
    (ValidateChecksum SensorKind.DHT22
        ⟨⟨0x02, 0x8C, 0x00, 0x00, 0x8E⟩, 0, SensorStatus_t.SUCCESS, 7, 7⟩).1 =
      SensorStatus_t.SUCCESS ∧
    GetHumidity
        (ValidateChecksum SensorKind.DHT22
          ⟨⟨0x02, 0x8C, 0x00, 0x00, 0x8E⟩, 0, SensorStatus_t.SUCCESS, 7, 7⟩).2 = 65 ∧
    (65 : ℚ) ≠ 652 / 10 :=
  ⟨by decide, by decide, by norm_num, by decide, by decide, by norm_num⟩

/-- C8: frame assembly packs the 40 sampled bits MSB-first within each
byte: for every 40-bit sample vector (entries 0 or 1) and every byte
index i, frame byte i equals the sum over j < 8 of bit[8*i+j]*2^(7-j). -/
theorem dht_c8_msb_first_packing (bits : List Nat) (h : ∀ x ∈ bits, x ≤ 1)
    (i : Fin 5) :
    frameByte (storeFrame bits) i =
      ∑ j in Finset.range 8, bits.getD (8 * (i : Nat) + j) 0 * 2 ^ (7 - j) := by
  rcases i with ⟨iv, hiv⟩
  interval_cases iv
  · show packByte bits 0 = _
    rw [packByte_eq_sum bits h 0]
    norm_num
  · show packByte bits 1 = _
    rw [packByte_eq_sum bits h 1]
    norm_num
  · show packByte bits 2 = _
    rw [packByte_eq_sum bits h 2]
    norm_num
  · show packByte bits 3 = _
    rw [packByte_eq_sum bits h 3]
    norm_num
  · show packByte bits 4 = _
    rw [packByte_eq_sum bits h 4]
    norm_num

/-- C8 witness: the packing identity evaluated on the concrete sample
vector 1,0,1,0,1,0,1,0,... at byte index 0. -/
theorem dht_c8_witness :
    frameByte (storeFrame [1, 0, 1, 0, 1, 0, 1, 0]) (0 : Fin 5) =
      ∑ j in Finset.range 8,
        ([1, 0, 1, 0, 1, 0, 1, 0] : List Nat).getD (8 * ((0 : Fin 5) : Nat) + j) 0 *
          2 ^ (7 - j) :=
  dht_c8_msb_first_packing [1, 0, 1, 0, 1, 0, 1, 0] (by decide) 0
